import Mathlib

/-!
Verification development for the 0g-proxy translation gateway.

The TypeScript sources are shallowly embedded below:
* `src/utils/translator.ts` (final version in the file): the `Translator`
  class — request/response translation between the OpenAI dialect and the
  0G dialect, token estimation, SSE line parsing, stream-chunk translation.
* `src/routes/chat.ts` (final version): request validation, upstream error
  mapping, and the streaming read loop of `handleStreamingRequest`.
* the broker module (`BrokerManager.getProvider`): provider resolution with
  the single-slot cache, with the SDK capabilities abstracted as oracles.

Backend JSON values (`response.json()`, `JSON.parse` results) are modelled
by the inductive `Json` below, together with the JavaScript truthiness and
field-access semantics the sources rely on.
-/

/-! ### String primitives

The embedded code leans on a handful of JavaScript string operations;
they are defined here over the character list, so that every definition
in this file evaluates by kernel reduction on concrete inputs. -/

/-- Whether `p` is a leading segment of `cs`. -/
def leadsChars : List Char → List Char → Bool
  | [], _ => true
  | _ :: _, [] => false
  | p :: ps, c :: cs => p = c && leadsChars ps cs

/-- JavaScript `s.startsWith(pre)`. -/
def jsStartsWith (s pre : String) : Bool := leadsChars pre.toList s.toList

/-- JavaScript `s.substring(n)` for ASCII inputs: drop the first `n`
characters. -/
def jsDrop (s : String) (n : Nat) : String := String.mk (s.toList.drop n)

/-- JavaScript `s.trim()`: strip leading and trailing whitespace. -/
def jsTrim (s : String) : String :=
  String.mk (((s.toList.dropWhile Char.isWhitespace).reverse.dropWhile Char.isWhitespace).reverse)

/-- Split a character list on a separator character, keeping empty
segments, as JavaScript `s.split(sep)` does. -/
def splitOnChar (sep : Char) : List Char → List (List Char)
  | [] => [[]]
  | c :: cs =>
    let r := splitOnChar sep cs
    if c = sep then [] :: r
    else
      match r with
      | [] => [[c]]
      | h :: t => (c :: h) :: t

/-- JavaScript `s.split("\n")`. -/
def jsSplitNl (s : String) : List String := (splitOnChar '\n' s.toList).map String.mk

/-- JavaScript `s.toLowerCase()` (the addresses compared with it are
ASCII). -/
def jsToLower (s : String) : String := String.mk (s.toList.map Char.toLower)

/-- Whether `pat` occurs in `s` as a substring. -/
def containsSubAux : List Char → List Char → Bool
  | [], p => p.isEmpty
  | c :: cs, p => leadsChars p (c :: cs) || containsSubAux cs p

/-- Whether `pat` occurs in `s` as a substring. -/
def strContains (s pat : String) : Bool := containsSubAux s.toList pat.toList

/-- A JSON document as produced by `JSON.parse`.  Numbers keep their source
text (`raw`); none of the embedded code does arithmetic on them. -/
inductive Json where
  | null
  | bool (b : Bool)
  | num (raw : String)
  | str (s : String)
  | arr (elems : List Json)
  | obj (fields : List (String × Json))

/-- Field lookup in a parsed object: with duplicate keys, `JSON.parse` keeps
the last occurrence, so the last binding wins. -/
def lookupField : List (String × Json) → String → Option Json
  | [], _ => none
  | (k, v) :: rest, key =>
    match lookupField rest key with
    | some r => some r
    | none => if k = key then some v else none

/-- JavaScript property access `j[k]`; `none` plays the role of `undefined`
(access on a non-object, or an absent key). -/
def getField : Json → String → Option Json
  | .obj fs, k => lookupField fs k
  | _, _ => none

/-- Truthiness of a JSON number literal: falsy exactly when its value is
zero, i.e. when the mantissa has no non-zero digit. -/
def numTruthy (raw : String) : Bool :=
  let mantissa := raw.toList.takeWhile fun c => c != 'e' && c != 'E'
  mantissa.any fun c => c.isDigit && c != '0'

/-- JavaScript truthiness of a parsed JSON value (arrays and objects are
always truthy, even when empty). -/
def jsTruthy : Json → Bool
  | .null => false
  | .bool b => b
  | .num raw => numTruthy raw
  | .str s => !s.isEmpty
  | .arr _ => true
  | .obj _ => true

/-- Access `j[k]` collapsed to a value: absent fields read as `null` (both are
falsy, and the embedded code only inspects such reads for truthiness). -/
def jsFieldD (j : Json) (k : String) : Json := (getField j k).getD .null

/-- The test `j.length > 0` as JavaScript evaluates it: true for a non-empty array
or string, false otherwise (`undefined > 0` is false). -/
def jsLenPos : Json → Bool
  | .arr l => !l.isEmpty
  | .str s => !s.isEmpty
  | _ => false

/-- Indexing `j[0]`: head of an array, first character of a string, else undefined. -/
def jsIndex0 : Json → Option Json
  | .arr (x :: _) => some x
  | .str s =>
    match s.toList with
    | c :: _ => some (.str c.toString)
    | [] => none
  | _ => none

/-- Optional chaining `j[k1]?.[k2]`: undefined when `j[k1]` is null or
undefined, otherwise the (possibly undefined) field `k2`. -/
def optChain (j : Json) (k1 k2 : String) : Option Json :=
  match getField j k1 with
  | none => none
  | some .null => none
  | some m => getField m k2

/-- The JavaScript `a || b || ... || dflt` chain: the first truthy value
(undefined entries are falsy), else the default. -/
def orElseJs : List (Option Json) → Json → Json
  | [], dflt => dflt
  | v :: rest, dflt =>
    match v with
    | some j => if jsTruthy j then j else orElseJs rest dflt
    | none => orElseJs rest dflt

/-! ### A model of `JSON.parse` / `JSON.stringify`

`JSON.parse` is the JavaScript runtime primitive used by
`Translator.parseSSELine`; it is embedded as a strict recursive-descent
parser over the character list, with a fuel argument bounding the nesting
depth (the input length is always a sufficient bound). -/

/-- Skip JSON whitespace (space, tab, newline, carriage return). -/
def skipWs : List Char → List Char
  | [] => []
  | c :: cs => if c = ' ' || c = '\t' || c = '\n' || c = '\r' then skipWs cs else c :: cs

/-- Consume the exact characters of `lit`, or fail. -/
def stripLit : List Char → List Char → Option (List Char)
  | [], cs => some cs
  | _, [] => none
  | l :: ls, c :: cs => if l = c then stripLit ls cs else none

/-- Hex digit value, for `\uXXXX` escapes. -/
def hexVal (c : Char) : Option Nat :=
  if '0' ≤ c ∧ c ≤ '9' then some (c.toNat - '0'.toNat)
  else if 'a' ≤ c ∧ c ≤ 'f' then some (c.toNat - 'a'.toNat + 10)
  else if 'A' ≤ c ∧ c ≤ 'F' then some (c.toNat - 'A'.toNat + 10)
  else none

/-- Body of a JSON string, after the opening quote; returns the decoded
string and the input after the closing quote.  Unknown escapes fail, as in
`JSON.parse`. -/
def parseStringBody : List Char → Option (String × List Char)
  | [] => none
  | '"' :: rest => some ("", rest)
  | '\\' :: '"' :: rest => (parseStringBody rest).map fun (s, r) => ("\"" ++ s, r)
  | '\\' :: '\\' :: rest => (parseStringBody rest).map fun (s, r) => ("\\" ++ s, r)
  | '\\' :: '/' :: rest => (parseStringBody rest).map fun (s, r) => ("/" ++ s, r)
  | '\\' :: 'n' :: rest => (parseStringBody rest).map fun (s, r) => ("\n" ++ s, r)
  | '\\' :: 't' :: rest => (parseStringBody rest).map fun (s, r) => ("\t" ++ s, r)
  | '\\' :: 'r' :: rest => (parseStringBody rest).map fun (s, r) => ("\r" ++ s, r)
  | '\\' :: 'b' :: rest => (parseStringBody rest).map fun (s, r) => ("\x08" ++ s, r)
  | '\\' :: 'f' :: rest => (parseStringBody rest).map fun (s, r) => ("\x0c" ++ s, r)
  | '\\' :: 'u' :: a :: b :: c :: d :: rest =>
    match hexVal a, hexVal b, hexVal c, hexVal d with
    | some ha, some hb, some hc, some hd =>
      let code := ((ha * 16 + hb) * 16 + hc) * 16 + hd
      (parseStringBody rest).map fun (s, r) => ((Char.ofNat code).toString ++ s, r)
    | _, _, _, _ => none
  | '\\' :: _ => none
  | c :: rest => (parseStringBody rest).map fun (s, r) => (c.toString ++ s, r)

/-- Longest prefix of decimal digits. -/
def spanDigits : List Char → List Char × List Char
  | [] => ([], [])
  | c :: cs =>
    if c.isDigit then
      let (ds, rest) := spanDigits cs
      (c :: ds, rest)
    else ([], c :: cs)

/-- Optional fraction part `.digits`. -/
def parseFracPart : List Char → Option (List Char × List Char)
  | '.' :: r =>
    match spanDigits r with
    | ([], _) => none
    | (ds, r2) => some ('.' :: ds, r2)
  | cs => some ([], cs)

/-- Optional exponent part `e[+-]digits`. -/
def parseExpPart : List Char → Option (List Char × List Char)
  | [] => some ([], [])
  | e :: r =>
    if e = 'e' || e = 'E' then
      let (sgn, r2) : List Char × List Char :=
        match r with
        | '+' :: t => (['+'], t)
        | '-' :: t => (['-'], t)
        | _ => ([], r)
      match spanDigits r2 with
      | ([], _) => none
      | (ds, r3) => some (e :: (sgn ++ ds), r3)
    else some ([], e :: r)

/-- A JSON number literal (kept as its source text). -/
def parseNumberChars (cs : List Char) : Option (String × List Char) :=
  let (neg, cs1) : List Char × List Char :=
    match cs with
    | '-' :: r => (['-'], r)
    | _ => ([], cs)
  match cs1 with
  | [] => none
  | c :: r =>
    let intPart? : Option (List Char × List Char) :=
      if c = '0' then some (['0'], r)
      else if c.isDigit then
        let (ds, r2) := spanDigits r
        some (c :: ds, r2)
      else none
    match intPart? with
    | none => none
    | some (ip, r2) =>
      match parseFracPart r2 with
      | none => none
      | some (fp, r3) =>
        match parseExpPart r3 with
        | none => none
        | some (ep, r4) => some (String.mk (neg ++ ip ++ fp ++ ep), r4)

mutual

/-- A JSON value; the fuel bounds the nesting depth. -/
def parseVal : Nat → List Char → Option (Json × List Char)
  | 0, _ => none
  | f + 1, cs =>
    match skipWs cs with
    | [] => none
    | c :: rest =>
      if c = '"' then (parseStringBody rest).map fun (s, r) => (.str s, r)
      else if c = '[' then
        match skipWs rest with
        | ']' :: r => some (.arr [], r)
        | cs2 => (parseElems f cs2).map fun (l, r) => (.arr l, r)
      else if c = '\x7b' then
        match skipWs rest with
        | '\x7d' :: r => some (.obj [], r)
        | cs2 => (parseFields f cs2).map fun (l, r) => (.obj l, r)
      else if c = 'n' then (stripLit ['u', 'l', 'l'] rest).map fun r => (.null, r)
      else if c = 't' then (stripLit ['r', 'u', 'e'] rest).map fun r => (.bool true, r)
      else if c = 'f' then (stripLit ['a', 'l', 's', 'e'] rest).map fun r => (.bool false, r)
      else (parseNumberChars (c :: rest)).map fun (s, r) => (.num s, r)

/-- Comma-separated array elements, up to the closing bracket. -/
def parseElems : Nat → List Char → Option (List Json × List Char)
  | 0, _ => none
  | f + 1, cs => do
    let (v, r) ← parseVal f cs
    match skipWs r with
    | ',' :: r2 => (parseElems f r2).map fun (l, r3) => (v :: l, r3)
    | ']' :: r2 => some ([v], r2)
    | _ => none

/-- Comma-separated `"key": value` members, up to the closing brace. -/
def parseFields : Nat → List Char → Option (List (String × Json) × List Char)
  | 0, _ => none
  | f + 1, cs =>
    match skipWs cs with
    | '"' :: r => do
      let (k, r1) ← parseStringBody r
      match skipWs r1 with
      | ':' :: r2 => do
        let (v, r3) ← parseVal f r2
        match skipWs r3 with
        | ',' :: r4 => (parseFields f r4).map fun (l, r5) => ((k, v) :: l, r5)
        | '\x7d' :: r4 => some ([(k, v)], r4)
        | _ => none
      | _ => none
    | _ => none

end

/-- The model of `JSON.parse`: parse one value and require only whitespace after it;
any failure yields `none` (the embedded callers catch the exception). -/
def jsonParse (s : String) : Option Json :=
  match parseVal (s.length + 1) s.toList with
  | some (v, rest) => if (skipWs rest).isEmpty then some v else none
  | none => none

/-- JSON string escaping for `JSON.stringify`. -/
def escapeJsonChar (c : Char) : String :=
  if c = '"' then "\\\""
  else if c = '\\' then "\\\\"
  else if c = '\n' then "\\n"
  else if c = '\r' then "\\r"
  else if c = '\t' then "\\t"
  else if c = '\x08' then "\\b"
  else if c = '\x0c' then "\\f"
  else if c.toNat < 32 then
    let hexDigit := fun (n : Nat) =>
      if n < 10 then Char.ofNat ('0'.toNat + n) else Char.ofNat ('a'.toNat + n - 10)
    "\\u00" ++ (hexDigit (c.toNat / 16)).toString ++ (hexDigit (c.toNat % 16)).toString
  else c.toString

/-- A quoted, escaped JSON string literal. -/
def quoteJson (s : String) : String :=
  "\"" ++ String.join (s.toList.map escapeJsonChar) ++ "\""

mutual

/-- The model of `JSON.stringify` (numbers are emitted as their source text, which
agrees with `JSON.stringify` on canonical literals). -/
def stringifyJson : Json → String
  | .null => "null"
  | .bool true => "true"
  | .bool false => "false"
  | .num raw => raw
  | .str s => quoteJson s
  | .arr l => "[" ++ String.intercalate "," (stringifyList l) ++ "]"
  | .obj fs => "\x7b" ++ String.intercalate "," (stringifyMembers fs) ++ "\x7d"

/-- Serialized elements of a JSON array. -/
def stringifyList : List Json → List String
  | [] => []
  | j :: rest => stringifyJson j :: stringifyList rest

/-- Serialized `"key":value` members of a JSON object. -/
def stringifyMembers : List (String × Json) → List String
  | [] => []
  | (k, v) :: rest => (quoteJson k ++ ":" ++ stringifyJson v) :: stringifyMembers rest

end

/-! ### Dialect structures (`src/utils/translator.ts`, final version)

The request-side interfaces are typed in the source
(`OpenAIChatRequest`, `ZGChatRequest`), so they are embedded as
structures; optional fields become `Option` (with `none` for an absent
field — omission, not null).  `content` on a message is `string | null`,
embedded as `Option String` with `none` for null. -/

/-- The `function` member of `OpenAIToolCall`. -/
structure ToolCallFunction where
  name : String
  arguments : String

/-- Interface `OpenAIToolCall`: id, fixed "function" type tag, function name and
serialized arguments. -/
structure OpenAIToolCall where
  id : String
  type : String
  function : ToolCallFunction

/-- The `function` member of `OpenAITool`; the JSON-schema parameter spec is passed
through untranslated, so it is kept as an opaque-to-the-core `Json`. -/
structure ToolFunction where
  name : String
  description : Option String
  parameters : Option Json

/-- Interface `OpenAITool`. -/
structure OpenAITool where
  type : String
  function : ToolFunction

/-- Field `tool_choice`: "none" | "auto" | a named function directive. -/
inductive ToolChoice where
  | choiceNone
  | choiceAuto
  | choiceFunction (name : String)

/-- Interface `OpenAIChatMessage`. -/
structure OpenAIChatMessage where
  role : String
  content : Option String
  tool_calls : Option (List OpenAIToolCall) := none
  tool_call_id : Option String := none
  name : Option String := none

/-- Interface `OpenAIChatRequest`; `temperature`-like numbers are embedded as `Rat`
(they are only passed through, never computed with). -/
structure OpenAIChatRequest where
  model : String
  messages : List OpenAIChatMessage
  temperature : Option Rat := none
  max_tokens : Option Nat := none
  top_p : Option Rat := none
  frequency_penalty : Option Rat := none
  presence_penalty : Option Rat := none
  stop : Option (List String) := none
  stream : Option Bool := none
  tools : Option (List OpenAITool) := none
  tool_choice : Option ToolChoice := none

/-- A message of `ZGChatRequest`. -/
structure ZGMessage where
  role : String
  content : Option String
  tool_calls : Option (List OpenAIToolCall)
  tool_call_id : Option String
  name : Option String

/-- Interface `ZGChatRequest` (final version: includes `stream`). -/
structure ZGChatRequest where
  messages : List ZGMessage
  model : String
  temperature : Option Rat
  max_tokens : Option Nat
  stream : Option Bool
  tools : Option (List OpenAITool)
  tool_choice : Option ToolChoice

/-- Truthiness of an optional JS string: absent and empty are falsy. -/
def optStrTruthy : Option String → Bool
  | some s => !s.isEmpty
  | none => false

/-- The `usage` record of `OpenAIChatResponse`. -/
structure Usage where
  prompt_tokens : Nat
  completion_tokens : Nat
  total_tokens : Nat

/-- The message inside the single choice of `OpenAIChatResponse`; its
content is whatever JS value the decode produced (string, null, ...). -/
structure RespMessage where
  role : String
  content : Json
  tool_calls : Option Json

/-- The single choice of `OpenAIChatResponse`. -/
structure RespChoice where
  index : Nat
  message : RespMessage
  finish_reason : Json

/-- Interface `OpenAIChatResponse` as built by `Translator.zgToOpenAI`. -/
structure OpenAIChatResponse where
  id : Json
  object : String
  created : Nat
  model : String
  choices : List RespChoice
  usage : Usage

/-- An OpenAI streaming chunk as built by
`Translator.zgStreamChunkToOpenAI` (single choice, index 0). -/
structure StreamChunkOut where
  id : Json
  object : String
  created : Json
  model : String
  delta : Json
  finish_reason : Json

namespace Translator

/-- Method `Translator.estimateTokens`: `Math.ceil(text.length / 4)`. -/
def estimateTokens (text : String) : Nat := (text.length + 3) / 4

/-- Method `Translator.openAIToZG`: per-message mapping with the
`...(cond && field)` spread idiom (a field is kept only when truthy), and
request-level fields copied exactly when `!== undefined`. -/
def openAIToZG (openAIRequest : OpenAIChatRequest) : ZGChatRequest :=
  { messages := openAIRequest.messages.map fun msg =>
      { role := msg.role
        content := msg.content
        tool_calls := msg.tool_calls
        tool_call_id := if optStrTruthy msg.tool_call_id then msg.tool_call_id else none
        name := if optStrTruthy msg.name then msg.name else none }
    model := openAIRequest.model
    temperature := openAIRequest.temperature
    max_tokens := openAIRequest.max_tokens
    stream := openAIRequest.stream
    tools := openAIRequest.tools
    tool_choice := openAIRequest.tool_choice }

/-- The local state of `Translator.zgToOpenAI` after the shape-probing
if/else-if chain: `content`, `finishReason`, `toolCalls`. -/
structure DecodedCore where
  content : Json
  finishReason : Json
  toolCalls : Option Json

/-- The shape-probing chain of `Translator.zgToOpenAI` (lines 560-588):
choices shape, then `response`, then `content`, then raw string, each
guarded by truthiness; first match wins. -/
def zgDecodeCore (zgResponse : Json) : DecodedCore :=
  let choices := jsFieldD zgResponse "choices"
  if jsTruthy choices && jsLenPos choices then
    let choice := (jsIndex0 choices).getD .null
    let content0 := orElseJs [optChain choice "message" "content", getField choice "text"] (.str "")
    let finishReason := orElseJs [getField choice "finish_reason"] (.str "stop")
    if jsTruthy ((optChain choice "message" "tool_calls").getD .null) then
      { content := if jsTruthy content0 then content0 else .null
        finishReason := finishReason
        toolCalls := optChain choice "message" "tool_calls" }
    else
      { content := content0, finishReason := finishReason, toolCalls := none }
  else if jsTruthy (jsFieldD zgResponse "response") then
    { content := jsFieldD zgResponse "response", finishReason := .str "stop", toolCalls := none }
  else if jsTruthy (jsFieldD zgResponse "content") then
    { content := jsFieldD zgResponse "content", finishReason := .str "stop", toolCalls := none }
  else
    match zgResponse with
    | .str s => { content := .str s, finishReason := .str "stop", toolCalls := none }
    | _ => { content := .str "", finishReason := .str "stop", toolCalls := none }

/-- The string the decoded content contributes to the completion-token
estimate: `content || ""` fed to `estimateTokens` (the source would yield
NaN for a truthy non-string content since `.length` is undefined there;
that corner is modelled as the empty string and is excluded from the
theorems about usage). -/
def contentForEstimate (content : Json) : String :=
  match (if jsTruthy content then content else .str "") with
  | .str s => s
  | _ => ""

/-- Method `Translator.zgToOpenAI`.  The two runtime effects — `Date.now()` and
`crypto.randomBytes` — are passed in as `now` and `generatedId`. -/
def zgToOpenAI (zgResponse : Json) (model : String)
    (requestMessages : List OpenAIChatMessage)
    (generatedId : String) (now : Nat) : OpenAIChatResponse :=
  let d := zgDecodeCore zgResponse
  let promptTokens :=
    estimateTokens (String.intercalate " " (requestMessages.map fun m => m.content.getD ""))
  let completionTokens :=
    estimateTokens (contentForEstimate d.content) +
      (match d.toolCalls with
       | some tc => estimateTokens (stringifyJson tc)
       | none => 0)
  { id := orElseJs [getField zgResponse "id"] (.str ("chatcmpl-" ++ generatedId))
    object := "chat.completion"
    created := now
    model := model
    choices := [{ index := 0
                  message := { role := "assistant", content := d.content, tool_calls := d.toolCalls }
                  finish_reason := d.finishReason }]
    usage := { prompt_tokens := promptTokens
               completion_tokens := completionTokens
               total_tokens := promptTokens + completionTokens } }

/-- Method `Translator.zgStreamChunkToOpenAI`: shape-probe a parsed stream chunk
(`choices[0].delta`, then top-level `delta`, then a present `content`
field, then a raw string) and wrap it as a single-choice OpenAI chunk. -/
def zgStreamChunkToOpenAI (zgChunk : Json) (model : String)
    (fallbackId : String) (fallbackCreated : Nat) : StreamChunkOut :=
  let choices := jsFieldD zgChunk "choices"
  let deltaFinish : Json × Json :=
    if jsTruthy choices && jsLenPos choices then
      let choice := (jsIndex0 choices).getD .null
      (orElseJs [getField choice "delta"] (.obj []),
       orElseJs [getField choice "finish_reason"] .null)
    else if jsTruthy (jsFieldD zgChunk "delta") then
      (jsFieldD zgChunk "delta", orElseJs [getField zgChunk "finish_reason"] .null)
    else
      match getField zgChunk "content" with
      | some c => (.obj [("content", c)], .null)
      | none =>
        match zgChunk with
        | .str s => (.obj [("content", .str s)], .null)
        | _ => (.obj [], .null)
  { id := orElseJs [getField zgChunk "id"] (.str fallbackId)
    object := "chat.completion.chunk"
    created := orElseJs [getField zgChunk "created"] (.num (toString fallbackCreated))
    model := model
    delta := deltaFinish.1
    finish_reason := deltaFinish.2 }

/-- The sentinel `{ done: true }` that `parseSSELine` returns for the
`[DONE]` payload. -/
def doneSentinel : Json := .obj [("done", .bool true)]

/-- Method `Translator.parseSSELine`: only `data: `-prefixed lines are
recognized; the payload is trimmed; `[DONE]` yields the terminal
sentinel; otherwise the payload is `JSON.parse`d, with failures mapped to
null. -/
def parseSSELine (line : String) : Option Json :=
  if jsStartsWith line "data: " then
    let data := jsTrim (jsDrop line 6)
    if data = "[DONE]" then some doneSentinel
    else jsonParse data
  else none

end Translator

/-! ### The completion route (`src/routes/chat.ts`, final version) -/

/-- The JSON error document the route sends to the client. -/
structure ErrorBody where
  message : String
  errType : String
  code : String

/-- A client-visible error response: HTTP status plus error document. -/
structure ClientError where
  status : Nat
  body : ErrorBody

/-- The `messages` field of the inbound body as the validation sees it:
an actual array, a missing field, or a non-array value.  The route checks
`!messages || !Array.isArray(messages)`, which rejects exactly the last
two (an array, even empty, always passes: arrays are truthy). -/
inductive BodyMessages where
  | present (msgs : List OpenAIChatMessage)
  | missing
  | nonArray

/-- The inbound request body fields the validation inspects. -/
structure ChatBody where
  messages : BodyMessages
  model : Option String

/-- What the route emits, in order: a structured client response or an
external call (the first one after validation is provider resolution). -/
inductive RouteEvent where
  | respond (status : Nat) (body : ErrorBody)
  | callGetProvider (identifier : String)

/-- The validation prefix of `router.post("/chat/completions")` (final
chat.ts, lines 162-196): reject a missing/non-array `messages` and a
falsy `model` with 400 before anything else runs; `k` abstracts the
dispatch to the streaming / non-streaming handlers, whose first step is
provider resolution. -/
def chatRoute (body : ChatBody) (k : List RouteEvent) : List RouteEvent :=
  match body.messages with
  | .missing =>
    [.respond 400 ⟨"Invalid request: messages array is required", "invalid_request_error", "invalid_messages"⟩]
  | .nonArray =>
    [.respond 400 ⟨"Invalid request: messages array is required", "invalid_request_error", "invalid_messages"⟩]
  | .present _ =>
    if !optStrTruthy body.model then
      [.respond 400 ⟨"Invalid request: model is required", "invalid_request_error", "missing_model"⟩]
    else
      k

/-- The upstream-status mapping shared verbatim by
`handleNonStreamingRequest` (lines 280-304) and `handleStreamingRequest`
(lines 366-390): `response.ok` (status 200-299) proceeds, 402 maps to the
insufficient-balance error, any other status maps to a provider error
carrying the upstream status and body text. -/
def upstreamErrorResponse (status : Nat) (errorText : String) : Option ClientError :=
  if 200 ≤ status ∧ status ≤ 299 then none
  else if status = 402 then
    some ⟨402, ⟨"Insufficient balance in 0G account", "insufficient_balance", "insufficient_balance"⟩⟩
  else
    some ⟨status, ⟨"Provider error: " ++ errorText, "provider_error", "provider_error"⟩⟩

/-- One write to the streaming response: an SSE-framed chunk
(`res.write(Translator.formatSSE(...))`) or the terminal marker
(`res.write(Translator.formatSSEDone())`). -/
inductive WriteEvent where
  | sse (chunk : StreamChunkOut)
  | sseDone

/-- The inner `for (const line of lines)` loop of the streaming read loop
(lines 434-462): skip blanks and comment lines, drop unparsable or falsy
data, forward the terminal marker and `break` on a truthy `done` field,
otherwise translate and forward the chunk.  The `break` only leaves this
per-chunk loop. -/
def processLines (model completionId : String) (created : Nat) : List String → List WriteEvent
  | [] => []
  | line :: rest =>
    let trimmedLine := jsTrim line
    if trimmedLine.isEmpty || jsStartsWith trimmedLine ":" then
      processLines model completionId created rest
    else
      match Translator.parseSSELine trimmedLine with
      | none => processLines model completionId created rest
      | some data =>
        if !jsTruthy data then processLines model completionId created rest
        else if jsTruthy (jsFieldD data "done") then [.sseDone]
        else
          .sse (Translator.zgStreamChunkToOpenAI data model completionId created)
            :: processLines model completionId created rest

/-- The outer `for await (const chunk of reader)` loop (lines 426-463):
text chunks are appended to the carry-over buffer, complete lines are
split off (`buffer.split("\n")` with the last piece retained), and each
chunk's complete lines run through `processLines`.  A `break` inside a
chunk does not stop this loop: the next chunk is still read. -/
def pumpChunks (model completionId : String) (created : Nat) :
    List String → String → List WriteEvent
  | [], _ => []
  | chunk :: rest, buffer =>
    let lines := jsSplitNl (buffer ++ chunk)
    let newBuffer := (lines.getLast?).getD ""
    processLines model completionId created lines.dropLast
      ++ pumpChunks model completionId created rest newBuffer

/-- The streaming body handling of `handleStreamingRequest` after the SSE
headers are set (lines 421-467), for a non-null upstream body delivered
as the given text chunks: run the read loop, then unconditionally write a
final terminal marker (the source comment says "if not already sent", but
nothing tracks whether it was). -/
def streamUpstreamBody (model completionId : String) (created : Nat)
    (chunks : List String) : List WriteEvent :=
  pumpChunks model completionId created chunks "" ++ [.sseDone]

/-! ### Provider resolution (`BrokerManager.getProvider`)

The 0G SDK capabilities (`userAcknowledged`, `acknowledgeProviderSigner`,
`getServiceMetadata`, `listService`) are oracles in `BrokerEnv`; the
calls the resolution makes are recorded in order. -/

/-- Interface `ProviderInfo`: address, endpoint, canonical model id. -/
structure ProviderInfo where
  address : String
  endpoint : String
  model : String
deriving DecidableEq

/-- The external SDK capabilities consumed by `getProvider`. -/
structure BrokerEnv where
  userAcknowledged : String → Bool
  metadataEndpoint : String → String
  metadataModel : String → String
  services : List (String × String)

/-- A network/handshake call made through the broker SDK. -/
inductive BrokerCall where
  | callUserAcknowledged (addr : String)
  | callAcknowledgeProvider (addr : String)
  | callGetServiceMetadata (addr : String)
  | callListService
deriving DecidableEq

/-- The acknowledge-then-fetch-metadata sequence shared by both branches
of `getProvider` (lines 114-130 and 160-176): query acknowledgment,
acknowledge only if not yet acknowledged, fetch metadata, and build the
new cache entry. -/
def resolveAddress (env : BrokerEnv) (addr : String) : ProviderInfo × List BrokerCall :=
  let ackCalls :=
    if env.userAcknowledged addr then [] else [BrokerCall.callAcknowledgeProvider addr]
  (⟨addr, env.metadataEndpoint addr, env.metadataModel addr⟩,
   [BrokerCall.callUserAcknowledged addr] ++ ackCalls ++ [BrokerCall.callGetServiceMetadata addr])

/-- The model-name branch of `getProvider` (lines 133-179): list
services, fail when none, pick the first with the requested model, fail
when none matches, else acknowledge + fetch metadata and cache.  The
cache is left untouched on failure. -/
def getProviderByModel (env : BrokerEnv) (cache : Option ProviderInfo) (model : String) :
    Except String ProviderInfo × Option ProviderInfo × List BrokerCall :=
  if env.services.isEmpty then
    (.error "No providers available", cache, [.callListService])
  else
    match env.services.find? fun s => s.2 = model with
    | none => (.error ("No provider found for model: " ++ model), cache, [.callListService])
    | some s =>
      let (info, calls) := resolveAddress env s.1
      (.ok info, some info, .callListService :: calls)

/-- Method `BrokerManager.getProvider` (lines 95-180): classify the identifier
by the `0x` prefix; on a cache hit (case-insensitive address comparison,
exact model comparison) return the cached entry with no calls; otherwise
resolve and replace the cache. -/
def getProvider (env : BrokerEnv) (cache : Option ProviderInfo) (identifier : String) :
    Except String ProviderInfo × Option ProviderInfo × List BrokerCall :=
  if jsStartsWith identifier "0x" then
    match cache with
    | some p =>
      if jsToLower p.address = jsToLower identifier then (.ok p, some p, [])
      else
        let (info, calls) := resolveAddress env identifier
        (.ok info, some info, calls)
    | none =>
      let (info, calls) := resolveAddress env identifier
      (.ok info, some info, calls)
  else
    match cache with
    | some p =>
      if p.model = identifier then (.ok p, some p, [])
      else getProviderByModel env cache identifier
    | none => getProviderByModel env cache identifier

/-- Whether the requested identifier matches the single cached entry, as
`getProvider` compares: case-insensitively for a `0x` address, exactly
for a model name. -/
def cacheMatches (cache : Option ProviderInfo) (identifier : String) : Bool :=
  match cache with
  | none => false
  | some p =>
    if jsStartsWith identifier "0x" then jsToLower p.address = jsToLower identifier
    else p.model = identifier

/-- Count of acknowledgment calls in a call trace. -/
def countAcks (calls : List BrokerCall) : Nat :=
  calls.countP fun c => match c with | .callAcknowledgeProvider _ => true | _ => false

/-- Count of metadata fetches in a call trace. -/
def countMetadataFetches (calls : List BrokerCall) : Nat :=
  calls.countP fun c => match c with | .callGetServiceMetadata _ => true | _ => false

/-! ### The SYNTHESIZING branch of the StreamReshaper

The non-streaming fallback of the streaming path — the content-type gate
and the word-split synthesis — is documented in the repository
(TESTING.md: "Provider returned non-streaming response, converting to
stream"), but the snapshots of `handleStreamingRequest` under `src/`
predate it; the definitions in this section are therefore modelled from
the spec (§4.3). -/

/-- Modelled from the spec: the entry condition for SYNTHESIZING — the
upstream response's declared content type does not indicate an
event-stream/"stream" media type (spec §4.3). -/
def indicatesEventStream (contentType : String) : Bool :=
  strContains contentType "stream"

/-- The two branches of the StreamReshaper after INIT. -/
inductive ReshaperMode where
  | streamingMode
  | synthesizingMode
deriving DecidableEq

/-- Modelled from the spec: branch selection of the StreamReshaper — the
streaming branch for an event-stream content type, the synthesizing
branch otherwise (spec §4.3). -/
def reshaperModeFor (contentType : String) : ReshaperMode :=
  if indicatesEventStream contentType then .streamingMode else .synthesizingMode

/-- Group consecutive characters by whether they are whitespace, keeping
the runs in order. -/
def groupRuns : List Char → List (List Char)
  | [] => []
  | c :: cs =>
    match groupRuns cs with
    | [] => [[c]]
    | [] :: _ => [[c]]
    | (d :: ds) :: rest =>
      if c.isWhitespace = d.isWhitespace then (c :: d :: ds) :: rest
      else [c] :: (d :: ds) :: rest

/-- Modelled from the spec: split text on runs of whitespace while
preserving the whitespace runs as their own tokens (spec §4.3 (2)). -/
def whitespaceSplit (s : String) : List String :=
  (groupRuns s.toList).map fun cs => String.mk cs

/-- A decoded tool call as the synthesis consumes it. -/
structure SpecToolCall where
  id : String
  name : String
  arguments : String

/-- A frame emitted by the SYNTHESIZING branch. -/
inductive SynthFrame where
  | roleFrame
  | contentDelta (piece : String)
  | toolCallInit (id name : String)
  | toolCallArgs (arguments : String)
  | closingFrame (finishReason : String)
  | terminalMarker
deriving DecidableEq

/-- Modelled from the spec: the frame sequence SYNTHESIZING emits for a
decoded upstream document (spec §4.3): a role-only opening frame; one
content-delta frame per whitespace-split token when the content is
non-empty text; per tool call an initialization frame then one complete
arguments frame; a closing frame whose finish reason is forced to
"tool_calls" when any tool call was emitted; the terminal marker. -/
def synthesizeFrames (content : Option String) (toolCalls : List SpecToolCall)
    (finishReason : String) : List SynthFrame :=
  [SynthFrame.roleFrame]
    ++ (match content with
        | some c => if c.isEmpty then [] else (whitespaceSplit c).map SynthFrame.contentDelta
        | none => [])
    ++ (toolCalls.flatMap fun t => [SynthFrame.toolCallInit t.id t.name, SynthFrame.toolCallArgs t.arguments])
    ++ [SynthFrame.closingFrame (if toolCalls.isEmpty then finishReason else "tool_calls")]
    ++ [SynthFrame.terminalMarker]

/-! ### The decode shapes as the spec describes them

The spec (§4.1, design note §9) describes `zgToOpenAI`'s response
decoding as an ordered list of four shape matchers tried in a fixed
priority order, first match wins, no mixing.  The matchers and extractors
below spell that description out; the theorems compare them against the
transliterated `Translator.zgDecodeCore`. -/

/-- The element `choices[0]` of a response, as shape (1) reads it. -/
def shape1Choice (r : Json) : Json := (jsIndex0 (jsFieldD r "choices")).getD .null

/-- Shape (1): a truthy `choices` with positive length. -/
def shape1Matches (r : Json) : Bool :=
  jsTruthy (jsFieldD r "choices") && jsLenPos (jsFieldD r "choices")

/-- Shape (2): a truthy top-level `response` field. -/
def shape2Matches (r : Json) : Bool := jsTruthy (jsFieldD r "response")

/-- Shape (3): a truthy top-level `content` field. -/
def shape3Matches (r : Json) : Bool := jsTruthy (jsFieldD r "content")

/-- Shape (4): the whole payload is a raw string. -/
def shape4Matches (r : Json) : Bool :=
  match r with
  | .str _ => true
  | _ => false

/-- Extractor of shape (1): content from `message.content` (falling back
to `text`), finish reason from the choice with default "stop",
tool calls from `message.tool_calls`; with tool calls present and the
content empty, the content decodes to null. -/
def extractShape1 (r : Json) : Translator.DecodedCore :=
  let choice := shape1Choice r
  let content0 := orElseJs [optChain choice "message" "content", getField choice "text"] (.str "")
  let finishReason := orElseJs [getField choice "finish_reason"] (.str "stop")
  if jsTruthy ((optChain choice "message" "tool_calls").getD .null) then
    { content := if jsTruthy content0 then content0 else .null
      finishReason := finishReason
      toolCalls := optChain choice "message" "tool_calls" }
  else
    { content := content0, finishReason := finishReason, toolCalls := none }

/-- Extractor of shape (2): the `response` value as content. -/
def extractShape2 (r : Json) : Translator.DecodedCore :=
  { content := jsFieldD r "response", finishReason := .str "stop", toolCalls := none }

/-- Extractor of shape (3): the `content` value as content. -/
def extractShape3 (r : Json) : Translator.DecodedCore :=
  { content := jsFieldD r "content", finishReason := .str "stop", toolCalls := none }

/-- Extractor of shape (4): the raw string as content. -/
def extractShape4 (r : Json) : Translator.DecodedCore :=
  { content := match r with | .str s => .str s | _ => .str ""
    finishReason := .str "stop", toolCalls := none }

/-- No shape matched: empty content, finish reason "stop". -/
def extractDefaultShape : Translator.DecodedCore :=
  { content := .str "", finishReason := .str "stop", toolCalls := none }

/-- The four shape matchers tried in their fixed order; the first
matching shape's extractor wins, with no mixing. -/
def firstMatchingShape (r : Json) : Translator.DecodedCore :=
  if shape1Matches r then extractShape1 r
  else if shape2Matches r then extractShape2 r
  else if shape3Matches r then extractShape3 r
  else if shape4Matches r then extractShape4 r
  else extractDefaultShape

/-- The backend response `\x7bchoices:[\x7bmessage:\x7bcontent:"hi"\x7d, finish_reason:"stop"\x7d]\x7d`
used by the spec's decode example. -/
def sampleChoicesResponse : Json :=
  .obj [("choices", .arr [.obj [("message", .obj [("content", .str "hi")]),
                                ("finish_reason", .str "stop")]])]

/-- A stream chunk carrying only a bare `content` field, as translated for
the given id/created fallbacks. -/
def bareContentChunk : StreamChunkOut :=
  { id := .str "cid", object := "chat.completion.chunk", created := .num "0",
    model := "m", delta := .obj [("content", .str "x")], finish_reason := .null }

/-! ## Theorems -/

/-- C1: for every upstream response whose declared content type does not
indicate an event-stream media type, the streaming path enters
SYNTHESIZING, and for a body whose decoded content is "a b" it emits
exactly a role-only opening frame, content deltas "a", " ", "b", a
closing frame with finish reason "stop", and the terminal marker — five
frames before termination. -/
theorem c1_synthesizing_frames (contentType : String)
    (h : indicatesEventStream contentType = false) :
    reshaperModeFor contentType = ReshaperMode.synthesizingMode ∧
    synthesizeFrames (some "a b") [] "stop"
      = [SynthFrame.roleFrame, SynthFrame.contentDelta "a", SynthFrame.contentDelta " ",
         SynthFrame.contentDelta "b", SynthFrame.closingFrame "stop",
         SynthFrame.terminalMarker] ∧
    (synthesizeFrames (some "a b") [] "stop").dropLast.length = 5 := by
  refine ⟨?_, by rfl, by rfl⟩
  unfold reshaperModeFor
  rw [h]
  rfl

/-- Witness for C1 at the content type "application/json". -/
theorem c1_witness :
    indicatesEventStream "application/json" = false ∧
    (reshaperModeFor "application/json" = ReshaperMode.synthesizingMode ∧
     synthesizeFrames (some "a b") [] "stop"
       = [SynthFrame.roleFrame, SynthFrame.contentDelta "a", SynthFrame.contentDelta " ",
          SynthFrame.contentDelta "b", SynthFrame.closingFrame "stop",
          SynthFrame.terminalMarker] ∧
     (synthesizeFrames (some "a b") [] "stop").dropLast.length = 5) :=
  ⟨by rfl, c1_synthesizing_frames "application/json" (by rfl)⟩

/-- C5: evaluating the embedded streaming read loop of
`handleStreamingRequest`.  First conjunct: when the upstream sends the
terminal marker and then a further data frame in a later chunk, the loop
forwards the terminal marker, still reads and forwards the later frame
after it, and appends a second terminal marker at the end — so the
terminal marker is not last and not unique.  Second conjunct: when the
upstream ends without a terminal marker, the terminal marker is still
emitted before closing. -/
theorem c5_terminal_marker_behavior :
    streamUpstreamBody "m" "cid" 0
        ["data: [DONE]\n\n", "data: \x7b\"content\":\"x\"\x7d\n\n"]
      = [.sseDone, .sse bareContentChunk, .sseDone] ∧
    streamUpstreamBody "m" "cid" 0 ["data: \x7b\"content\":\"x\"\x7d\n\n"]
      = [.sse bareContentChunk, .sseDone] :=
  ⟨by rfl, by rfl⟩

/-- C6: `parseSSELine` recognizes only lines with the literal `data: `
prefix (anything else, including comment/keep-alive lines, yields null);
it strips the prefix and trims; a `[DONE]` payload yields the terminal
sentinel; any other payload is `JSON.parse`d with failures yielding null;
in particular "data: [DONE]" gives the sentinel, "data: not-json" gives
null, and ": keep-alive" gives null. -/
theorem c6_parseSSELine_spec :
    (∀ line : String, jsStartsWith line "data: " = false →
      Translator.parseSSELine line = none) ∧
    (∀ line : String, jsStartsWith line "data: " = true →
      (jsTrim (jsDrop line 6) = "[DONE]" →
        Translator.parseSSELine line = some Translator.doneSentinel) ∧
      (jsTrim (jsDrop line 6) ≠ "[DONE]" →
        Translator.parseSSELine line = jsonParse (jsTrim (jsDrop line 6)))) ∧
    Translator.parseSSELine "data: [DONE]" = some Translator.doneSentinel ∧
    Translator.parseSSELine "data: not-json" = none ∧
    Translator.parseSSELine ": keep-alive" = none := by
  refine ⟨?_, ?_, by rfl, by rfl, by rfl⟩
  · intro line h
    unfold Translator.parseSSELine
    simp [h]
  · intro line h
    constructor
    · intro hd
      unfold Translator.parseSSELine
      simp [h, hd]
    · intro hd
      unfold Translator.parseSSELine
      simp [h, hd]

/-- Witness for C6: a non-prefixed line yields null, and a JSON payload
is parsed. -/
theorem c6_witness :
    Translator.parseSSELine "x: y" = none ∧
    Translator.parseSSELine "data: 7" = some (Json.num "7") := by
  constructor
  · exact c6_parseSSELine_spec.1 "x: y" (by rfl)
  · have h := (c6_parseSSELine_spec.2.1 "data: 7" (by rfl)).2 (by decide)
    rw [h]
    rfl

/-- C9: the upstream-status mapping used by both handlers — status 402
yields the insufficient-balance client error regardless of the body, and
any other non-success status yields a provider error carrying the
upstream status and body text. -/
theorem c9_upstream_error_mapping (status : Nat) (errorText : String) :
    (status = 402 →
      upstreamErrorResponse status errorText =
        some ⟨402, ⟨"Insufficient balance in 0G account",
                    "insufficient_balance", "insufficient_balance"⟩⟩) ∧
    (¬(200 ≤ status ∧ status ≤ 299) → status ≠ 402 →
      upstreamErrorResponse status errorText =
        some ⟨status, ⟨"Provider error: " ++ errorText,
                       "provider_error", "provider_error"⟩⟩) := by
  constructor
  · rintro rfl
    unfold upstreamErrorResponse
    norm_num
  · intro h h402
    unfold upstreamErrorResponse
    rw [if_neg h, if_neg h402]

/-- Witness for C9 at statuses 402 and 500. -/
theorem c9_witness :
    upstreamErrorResponse 402 "anything" =
      some ⟨402, ⟨"Insufficient balance in 0G account",
                  "insufficient_balance", "insufficient_balance"⟩⟩ ∧
    upstreamErrorResponse 500 "boom" =
      some ⟨500, ⟨"Provider error: boom", "provider_error", "provider_error"⟩⟩ :=
  ⟨(c9_upstream_error_mapping 402 "anything").1 rfl,
   (c9_upstream_error_mapping 500 "boom").2 (by omega) (by omega)⟩

/-- C7: a resolution whose identifier matches the single cached entry
(case-insensitively for addresses, exactly for model names) returns the
cached ProviderInfo with no network or handshake call; and resolving the
address "0xABC" twice in succession (starting unresolved and not yet
acknowledged) performs exactly one acknowledgment call and one metadata
fetch in total, the second resolution making no calls and returning the
same provider. -/
theorem c7_provider_cache :
    (∀ (env : BrokerEnv) (cache : Option ProviderInfo) (identifier : String),
      cacheMatches cache identifier = true →
      ∃ p, cache = some p ∧ getProvider env cache identifier = (.ok p, some p, [])) ∧
    (∀ env : BrokerEnv, env.userAcknowledged "0xABC" = false →
      countAcks ((getProvider env none "0xABC").2.2
          ++ (getProvider env (getProvider env none "0xABC").2.1 "0xABC").2.2) = 1 ∧
      countMetadataFetches ((getProvider env none "0xABC").2.2
          ++ (getProvider env (getProvider env none "0xABC").2.1 "0xABC").2.2) = 1 ∧
      (getProvider env (getProvider env none "0xABC").2.1 "0xABC").2.2 = [] ∧
      (getProvider env (getProvider env none "0xABC").2.1 "0xABC").1
        = (getProvider env none "0xABC").1) := by
  constructor
  · intro env cache identifier h
    match cache with
    | none => simp [cacheMatches] at h
    | some p =>
      refine ⟨p, rfl, ?_⟩
      unfold cacheMatches at h
      unfold getProvider
      by_cases hx : jsStartsWith identifier "0x" = true
      · simp only [hx, if_true] at h ⊢
        simp only [decide_eq_true_eq] at h
        rw [if_pos h]
      · simp only [Bool.not_eq_true] at hx
        simp only [hx, Bool.false_eq_true, if_false] at h ⊢
        simp only [decide_eq_true_eq] at h
        rw [if_pos h]
  · intro env h
    have hx : jsStartsWith "0xABC" "0x" = true := by rfl
    have e1 : getProvider env none "0xABC"
        = (.ok ⟨"0xABC", env.metadataEndpoint "0xABC", env.metadataModel "0xABC"⟩,
           some ⟨"0xABC", env.metadataEndpoint "0xABC", env.metadataModel "0xABC"⟩,
           [.callUserAcknowledged "0xABC", .callAcknowledgeProvider "0xABC",
            .callGetServiceMetadata "0xABC"]) := by
      unfold getProvider resolveAddress
      rw [hx, h]
      rfl
    rw [e1]
    have e2 : getProvider env
        (some ⟨"0xABC", env.metadataEndpoint "0xABC", env.metadataModel "0xABC"⟩) "0xABC"
        = (.ok ⟨"0xABC", env.metadataEndpoint "0xABC", env.metadataModel "0xABC"⟩,
           some ⟨"0xABC", env.metadataEndpoint "0xABC", env.metadataModel "0xABC"⟩, []) := by
      rfl
    rw [e2]
    refine ⟨by rfl, by rfl, by rfl, by rfl⟩

/-- Witness for C7: a cache hit under case-insensitive address matching
makes no calls, and the two-resolution trace for "0xABC" under a concrete
environment has exactly one acknowledgment and one metadata fetch. -/
theorem c7_witness :
    (∃ p, (some (⟨"0xAbC", "https://e", "model-1"⟩ : ProviderInfo)) = some p ∧
      getProvider ⟨fun _ => false, fun _ => "https://e", fun _ => "model-1", []⟩
          (some ⟨"0xAbC", "https://e", "model-1"⟩) "0xABC" = (.ok p, some p, [])) ∧
    countAcks ((getProvider ⟨fun _ => false, fun _ => "https://e", fun _ => "model-1", []⟩
          none "0xABC").2.2
        ++ (getProvider ⟨fun _ => false, fun _ => "https://e", fun _ => "model-1", []⟩
            (getProvider ⟨fun _ => false, fun _ => "https://e", fun _ => "model-1", []⟩
              none "0xABC").2.1 "0xABC").2.2) = 1 :=
  ⟨c7_provider_cache.1 ⟨fun _ => false, fun _ => "https://e", fun _ => "model-1", []⟩
      (some ⟨"0xAbC", "https://e", "model-1"⟩) "0xABC" (by rfl),
   (c7_provider_cache.2 ⟨fun _ => false, fun _ => "https://e", fun _ => "model-1", []⟩
      (by rfl)).1⟩

/-- C8, counterexample: the rejection for a missing messages array does
carry status 400, but its message is the literal
"Invalid request: messages array is required", not the claim's quoted
"messages array is required". -/
theorem c8_counterexample :
    chatRoute ⟨.missing, some "gpt-oss-120b"⟩ [] =
      [.respond 400 ⟨"Invalid request: messages array is required",
                     "invalid_request_error", "invalid_messages"⟩] ∧
    "Invalid request: messages array is required" ≠ "messages array is required" :=
  ⟨by rfl, by decide⟩

/-- C8 as amended: a missing or non-array message list is rejected with
status 400, type invalid_request_error and message
"Invalid request: messages array is required"; with a valid message array
a missing (or empty) model is rejected with status 400 and message
"Invalid request: model is required"; both rejections produce only the
respond event — independently of the dispatch continuation `k`, so no
provider resolution or upstream call happens. -/
theorem c8_validation_before_resolution :
    (∀ (model : Option String) (k : List RouteEvent),
      chatRoute ⟨.missing, model⟩ k =
        [.respond 400 ⟨"Invalid request: messages array is required",
                       "invalid_request_error", "invalid_messages"⟩] ∧
      chatRoute ⟨.nonArray, model⟩ k =
        [.respond 400 ⟨"Invalid request: messages array is required",
                       "invalid_request_error", "invalid_messages"⟩]) ∧
    (∀ (msgs : List OpenAIChatMessage) (k : List RouteEvent),
      chatRoute ⟨.present msgs, none⟩ k =
        [.respond 400 ⟨"Invalid request: model is required",
                       "invalid_request_error", "missing_model"⟩] ∧
      chatRoute ⟨.present msgs, some ""⟩ k =
        [.respond 400 ⟨"Invalid request: model is required",
                       "invalid_request_error", "missing_model"⟩]) :=
  ⟨fun _ _ => ⟨rfl, rfl⟩, fun _ _ => ⟨rfl, rfl⟩⟩

/-- C10: shape matching is decided by truthiness, not field presence — an
empty choices array, an empty response string, or an empty content string
all fail their matcher and fall through; decoding the empty object,
an empty choices array, or an empty response string yields message
content "" (the empty string, not null) with finish reason "stop". -/
theorem c10_truthiness_not_presence :
    (∀ r : Json, getField r "choices" = some (.arr []) → shape1Matches r = false) ∧
    (∀ r : Json, getField r "response" = some (.str "") → shape2Matches r = false) ∧
    (∀ r : Json, getField r "content" = some (.str "") → shape3Matches r = false) ∧
    (∀ (model gid : String) (msgs : List OpenAIChatMessage) (now : Nat),
      ((Translator.zgToOpenAI (.obj []) model msgs gid now).choices.map
          fun c => (c.message.content, c.finish_reason))
        = [(Json.str "", Json.str "stop")] ∧
      ((Translator.zgToOpenAI (.obj [("choices", .arr [])]) model msgs gid now).choices.map
          fun c => (c.message.content, c.finish_reason))
        = [(Json.str "", Json.str "stop")] ∧
      ((Translator.zgToOpenAI (.obj [("response", .str "")]) model msgs gid now).choices.map
          fun c => (c.message.content, c.finish_reason))
        = [(Json.str "", Json.str "stop")]) ∧
    Json.str "" ≠ Json.null := by
  refine ⟨?_, ?_, ?_, fun _ _ _ _ => ⟨by rfl, by rfl, by rfl⟩, by simp⟩
  · intro r hc
    unfold shape1Matches jsFieldD
    rw [hc]
    rfl
  · intro r hr
    unfold shape2Matches jsFieldD
    rw [hr]
    rfl
  · intro r hc
    unfold shape3Matches jsFieldD
    rw [hc]
    rfl

/-- Witness for C10 at concrete responses with empty choices, response
and content fields. -/
theorem c10_witness :
    shape1Matches (.obj [("choices", .arr [])]) = false ∧
    shape2Matches (.obj [("response", .str "")]) = false ∧
    shape3Matches (.obj [("content", .str "")]) = false :=
  ⟨c10_truthiness_not_presence.1 (.obj [("choices", .arr [])]) (by rfl),
   c10_truthiness_not_presence.2.1 (.obj [("response", .str "")]) (by rfl),
   c10_truthiness_not_presence.2.2.1 (.obj [("content", .str "")]) (by rfl)⟩

/-- C4, counterexample: a message whose optional `name` and
`tool_call_id` are present but empty strings is encoded with both fields
omitted — the spread guards test truthiness, so a present empty-string
field does not appear in the encoded form, contradicting
"copied exactly when present". -/
theorem c4_counterexample :
    ((Translator.openAIToZG
        { model := "m",
          messages := [{ role := "tool", content := some "ok",
                         tool_call_id := some "", name := some "" }] }).messages.map
      fun m => (m.name, m.tool_call_id)) = [(none, none)] ∧
    ([({ role := "tool", content := some "ok", tool_call_id := some "",
         name := some "" } : OpenAIChatMessage)].map
      fun m => (m.name, m.tool_call_id)) = [(some "", some "")] :=
  ⟨by rfl, by rfl⟩

/-- C4 as amended: `openAIToZG` is total; it copies the request-level
optional fields the encoded form defines (temperature, max_tokens,
stream, tools, tool_choice) exactly when present, maps each message
preserving role, content and tool_calls, and copies the message-level
string options tool_call_id and name exactly when present with a
non-empty (truthy) value, omitting them otherwise. -/
theorem c4_encode_field_mapping (r : OpenAIChatRequest) :
    (Translator.openAIToZG r).model = r.model ∧
    (Translator.openAIToZG r).temperature = r.temperature ∧
    (Translator.openAIToZG r).max_tokens = r.max_tokens ∧
    (Translator.openAIToZG r).stream = r.stream ∧
    (Translator.openAIToZG r).tools = r.tools ∧
    (Translator.openAIToZG r).tool_choice = r.tool_choice ∧
    (Translator.openAIToZG r).messages.length = r.messages.length ∧
    (∀ (i : Nat) (m : OpenAIChatMessage), r.messages.get? i = some m →
      ∃ zm, (Translator.openAIToZG r).messages.get? i = some zm ∧
        zm.role = m.role ∧ zm.content = m.content ∧ zm.tool_calls = m.tool_calls ∧
        (optStrTruthy m.tool_call_id = true → zm.tool_call_id = m.tool_call_id) ∧
        (optStrTruthy m.tool_call_id = false → zm.tool_call_id = none) ∧
        (optStrTruthy m.name = true → zm.name = m.name) ∧
        (optStrTruthy m.name = false → zm.name = none)) := by
  refine ⟨rfl, rfl, rfl, rfl, rfl, rfl, by simp [Translator.openAIToZG], ?_⟩
  intro i m hm
  refine ⟨{ role := m.role, content := m.content, tool_calls := m.tool_calls,
            tool_call_id := if optStrTruthy m.tool_call_id then m.tool_call_id else none,
            name := if optStrTruthy m.name then m.name else none },
          ?_, rfl, rfl, rfl, ?_, ?_, ?_, ?_⟩
  · show (r.messages.map _).get? i = _
    rw [List.get?_eq_getElem?, List.getElem?_map, ← List.get?_eq_getElem?, hm]
    rfl
  · intro ht
    simp [ht]
  · intro ht
    simp [ht]
  · intro ht
    simp [ht]
  · intro ht
    simp [ht]

/-- Witness for C4 at a request with one message whose `name` is present
and non-empty and whose `tool_call_id` is absent. -/
theorem c4_witness :
    ∃ zm, (Translator.openAIToZG
        { model := "m",
          messages := [{ role := "assistant", content := some "x",
                         name := some "tool-a" }] }).messages.get? 0 = some zm ∧
      zm.role = "assistant" ∧ zm.content = some "x" ∧ zm.tool_calls = none ∧
      zm.tool_call_id = none ∧ zm.name = some "tool-a" := by
  obtain ⟨zm, h0, h1, h2, h3, _, h5, h6, _⟩ :=
    (c4_encode_field_mapping
      { model := "m",
        messages := [{ role := "assistant", content := some "x",
                       name := some "tool-a" }] }).2.2.2.2.2.2.2 0
      { role := "assistant", content := some "x", name := some "tool-a" } (by rfl)
  exact ⟨zm, h0, h1, h2, h3, h5 (by rfl), h6 (by rfl)⟩

/-- Helper: the transliterated decode chain of `zgToOpenAI` agrees with
the ordered four-shape-matcher formulation. -/
theorem zgDecodeCore_eq_firstMatchingShape (r : Json) :
    Translator.zgDecodeCore r = firstMatchingShape r := by
  cases r <;> rfl

/-- C2: the response decode tries exactly four shapes in their fixed
order — the choices shape, the top-level `response` field, the top-level
`content` field, the raw string — with the first matching shape winning
and no mixing; with tool calls present in shape (1) and an empty raw
content, the content decodes to null (not the empty string); a missing
finish reason defaults to "stop", both inside shape (1) and for every
other shape. -/
theorem c2_decode_shape_probing (r : Json) (model gid : String)
    (msgs : List OpenAIChatMessage) (now : Nat) :
    ((Translator.zgToOpenAI r model msgs gid now).choices.map fun c =>
        (c.message.content, c.message.tool_calls, c.finish_reason))
      = [((firstMatchingShape r).content, (firstMatchingShape r).toolCalls,
          (firstMatchingShape r).finishReason)] ∧
    (shape1Matches r = true →
      jsTruthy ((optChain (shape1Choice r) "message" "tool_calls").getD .null) = true →
      jsTruthy (orElseJs [optChain (shape1Choice r) "message" "content",
                          getField (shape1Choice r) "text"] (.str "")) = false →
      ((Translator.zgToOpenAI r model msgs gid now).choices.map fun c => c.message.content)
        = [Json.null] ∧ Json.null ≠ Json.str "") ∧
    (shape1Matches r = true → getField (shape1Choice r) "finish_reason" = none →
      ((Translator.zgToOpenAI r model msgs gid now).choices.map fun c => c.finish_reason)
        = [Json.str "stop"]) ∧
    (shape1Matches r = false →
      ((Translator.zgToOpenAI r model msgs gid now).choices.map fun c => c.finish_reason)
        = [Json.str "stop"]) := by
  refine ⟨?_, ?_, ?_, ?_⟩
  · simp [Translator.zgToOpenAI, zgDecodeCore_eq_firstMatchingShape]
  · intro h1 htc hc
    constructor
    · simp only [Translator.zgToOpenAI, zgDecodeCore_eq_firstMatchingShape,
        firstMatchingShape, h1, if_true, extractShape1, htc, hc]
      simp
    · simp
  · intro h1 hfr
    simp only [Translator.zgToOpenAI, zgDecodeCore_eq_firstMatchingShape,
      firstMatchingShape, h1, if_true, extractShape1, hfr]
    by_cases htc : jsTruthy ((optChain (shape1Choice r) "message" "tool_calls").getD .null) = true
    · simp [htc, orElseJs]
    · simp only [Bool.not_eq_true] at htc
      simp [htc, orElseJs]
  · intro h1
    simp only [Translator.zgToOpenAI, zgDecodeCore_eq_firstMatchingShape,
      firstMatchingShape, h1, Bool.false_eq_true, if_false]
    by_cases h2 : shape2Matches r = true
    · simp [h2, extractShape2]
    · simp only [Bool.not_eq_true] at h2
      by_cases h3 : shape3Matches r = true
      · simp [h2, h3, extractShape3]
      · simp only [Bool.not_eq_true] at h3
        by_cases h4 : shape4Matches r = true
        · simp [h2, h3, h4, extractShape4]
        · simp only [Bool.not_eq_true] at h4
          simp [h2, h3, h4, extractDefaultShape]

/-- Witness for C2: a choices response carrying tool calls and an empty
content string decodes to a null content. -/
theorem c2_witness :
    ((Translator.zgToOpenAI
        (.obj [("choices", .arr [.obj [("message",
          .obj [("content", .str ""), ("tool_calls", .arr [])])]])])
        "m" [] "g" 0).choices.map fun c => c.message.content) = [Json.null] :=
  ((c2_decode_shape_probing
      (.obj [("choices", .arr [.obj [("message",
        .obj [("content", .str ""), ("tool_calls", .arr [])])]])])
      "m" "g" [] 0).2.1 (by rfl) (by rfl) (by rfl)).1

/-- C3: usage is estimated, not transmitted — the prompt-token count is
the ceiling of a quarter of the length of all request message contents
joined by single spaces; the completion-token count is the same estimator
on the decoded content (when it is a string or null) plus, when tool
calls are present, the estimator on the serialized tool-call value; the
estimator is exactly the ceiling of length/4; and the spec's example
response decodes to content "hi", finish reason "stop" and
completion-token count ceil(2/4) = 1. -/
theorem c3_usage_estimation (r : Json) (model gid : String)
    (msgs : List OpenAIChatMessage) (now : Nat) :
    ((String.intercalate " " (msgs.map fun m => m.content.getD "")).length
        ≤ 4 * (Translator.zgToOpenAI r model msgs gid now).usage.prompt_tokens ∧
      4 * (Translator.zgToOpenAI r model msgs gid now).usage.prompt_tokens
        < (String.intercalate " " (msgs.map fun m => m.content.getD "")).length + 4) ∧
    (∀ s : String, (Translator.zgDecodeCore r).content = .str s →
      (Translator.zgToOpenAI r model msgs gid now).usage.completion_tokens
        = Translator.estimateTokens s +
            (match (Translator.zgDecodeCore r).toolCalls with
             | some tc => Translator.estimateTokens (stringifyJson tc)
             | none => 0)) ∧
    ((Translator.zgDecodeCore r).content = .null →
      (Translator.zgToOpenAI r model msgs gid now).usage.completion_tokens
        = (match (Translator.zgDecodeCore r).toolCalls with
           | some tc => Translator.estimateTokens (stringifyJson tc)
           | none => 0)) ∧
    (∀ s : String, s.length ≤ 4 * Translator.estimateTokens s ∧
      4 * Translator.estimateTokens s < s.length + 4) ∧
    ((Translator.zgToOpenAI sampleChoicesResponse model msgs gid now).choices.map
        fun c => (c.message.content, c.finish_reason))
      = [(Json.str "hi", Json.str "stop")] ∧
    (Translator.zgToOpenAI sampleChoicesResponse model msgs gid now).usage.completion_tokens
      = 1 := by
  refine ⟨?_, ?_, ?_, ?_, by rfl, by rfl⟩
  · show _ ≤ 4 * Translator.estimateTokens _ ∧ 4 * Translator.estimateTokens _ < _ + 4
    unfold Translator.estimateTokens
    omega
  · intro s hs
    show Translator.estimateTokens
        (Translator.contentForEstimate (Translator.zgDecodeCore r).content) + _ = _
    rw [hs]
    congr 1
    unfold Translator.contentForEstimate jsTruthy
    by_cases he : s.isEmpty
    · rw [String.isEmpty_iff] at he
      subst he
      rfl
    · simp [he]
  · intro hn
    show Translator.estimateTokens
        (Translator.contentForEstimate (Translator.zgDecodeCore r).content) + _ = _
    rw [hn]
    show Translator.estimateTokens "" + _ = _
    simp [Translator.estimateTokens]
  · intro s
    unfold Translator.estimateTokens
    omega

/-- Witness for C3 at the spec's example response: the decoded content is
the string "hi" and the completion-token estimate is 1. -/
theorem c3_witness :
    (Translator.zgToOpenAI sampleChoicesResponse "m" [] "g" 0).usage.completion_tokens
      = Translator.estimateTokens "hi" + 0 :=
  (c3_usage_estimation sampleChoicesResponse "m" "g" [] 0).2.1 "hi" (by rfl)
